import Mathlib

/-!
Shallow embedding of the step-transition engine of `src/static/script.js`
(the live revision: `showStep` at line 4213, `nextStep` at 4243,
`previousStep` at 4287, `transitionBetweenSteps` at 3964 and
`getDataKeyForStep` at 2731; the earlier overridden `showStep` /
`showStepImplementation` variants are dead code and are not modelled).

The model keeps the observable state the navigation code mutates:
`currentStep`, the `animationPlaying` busy guard, the `group.visible`
flag of each entry of the global `molecules` map (the six keys created
by `createMolecules`), the step / data key the info panels were last
refreshed for, and the pending `setTimeout` queue together with the
`window.animationResetTimeout` watchdog handle.  Continuous visual
detail (gsap opacity tweens, particle positions, camera easing) and the
DOM glue (mobile sidebar classes, console logging) carry no state the
claims mention and are abstracted away — with one exception: the
`animate()` render loop (line 4478), besides its purely visual work,
re-asserts the visibility of the stomach group on every frame
(lines 4487-4490); `renderFrame` models that single model-relevant
write, and `init()` starts the loop (line 430) before returning, so
the observable idle states of the running program are the post-frame
ones.  The happy path in which every
molecule group exists with children — which `createMolecules` (lines
1154-1710) establishes before any navigation is possible — is embedded;
the defensive `if (molecules[key] && molecules[key].group)` branches
are therefore always taken.

Timers are kept in JavaScript event-loop order: a queue sorted by fire
time, ties resolved first-scheduled-first, and a fuelled interpreter
`runTimersUntil` that fires every timer due by a deadline.  All
durations are in milliseconds: `duration = 1.5` seconds in
`transitionBetweenSteps` gives the source-hide / target-show swap at
`0.6 * duration = 900`, the fade-in timeout at `0.5 * duration = 750`,
the nested completion handler `0.6 * duration = 900` after that
(absolute `1650`), and the safety watchdog at `5000`.
-/

/-- Keys of the global `molecules` map: the four reaction species built at
lines 1157-1160 plus the `stomach` (1169) and `protein` (1592) environment
groups.  All six are iterated by the `Object.keys(molecules)` loops in
`showStep` and `transitionBetweenSteps`. -/
inductive MolKey where
  | sodiumNitrite
  | nitrousAcid
  | decomposed
  | nitrosamine
  | stomach
  | protein
deriving DecidableEq, Repr

/-- Primary reaction species, as opposed to the environment groups. -/
def MolKey.isPrimary : MolKey → Bool
  | .sodiumNitrite => true
  | .nitrousAcid => true
  | .decomposed => true
  | .nitrosamine => true
  | .stomach => false
  | .protein => false

/-- The `group.visible` flag of each of the six molecule groups. -/
structure Vis where
  sodiumNitrite : Bool
  nitrousAcid : Bool
  decomposed : Bool
  nitrosamine : Bool
  stomach : Bool
  protein : Bool
deriving DecidableEq, Repr

/-- Read the visibility flag of one group. -/
def Vis.get (v : Vis) : MolKey → Bool
  | .sodiumNitrite => v.sodiumNitrite
  | .nitrousAcid => v.nitrousAcid
  | .decomposed => v.decomposed
  | .nitrosamine => v.nitrosamine
  | .stomach => v.stomach
  | .protein => v.protein

/-- Write the visibility flag of one group
(`molecules[k].group.visible = b`). -/
def Vis.set (v : Vis) (k : MolKey) (b : Bool) : Vis :=
  match k with
  | .sodiumNitrite => { v with sodiumNitrite := b }
  | .nitrousAcid => { v with nitrousAcid := b }
  | .decomposed => { v with decomposed := b }
  | .nitrosamine => { v with nitrosamine := b }
  | .stomach => { v with stomach := b }
  | .protein => { v with protein := b }

/-- Visibility after a loop `molecules[key].group.visible = (key === k)`
over every key of the map, as in `showStep` (line 4224) and the opening
loop of `transitionBetweenSteps` (line 3975). -/
def onlyVisible (k : MolKey) : Vis :=
  { sodiumNitrite := decide (k = .sodiumNitrite)
  , nitrousAcid := decide (k = .nitrousAcid)
  , decomposed := decide (k = .decomposed)
  , nitrosamine := decide (k = .nitrosamine)
  , stomach := decide (k = .stomach)
  , protein := decide (k = .protein) }

/-- Payload of each `setTimeout` callback the transition engine schedules. -/
inductive TimerAction where
  /-- Line 4120: hide the source group, show the target group. -/
  | swapVis (fromKey toKey : MolKey)
  /-- Line 4149: start the target fade-in tweens and schedule the
  completion handler 900 ms later. -/
  | startFadeIn (toStep : Int)
  /-- Line 4163: refresh title / indicator / buttons / molecule data /
  scientific context for the target step, drop the particles, clear the
  busy flag. -/
  | complete (toStep : Int)
  /-- Line 4206: safety timeout that force-clears the busy flag. -/
  | watchdog
deriving DecidableEq, Repr

/-- One pending `setTimeout`: its id, absolute fire time (ms) and action. -/
structure PendingTimer where
  id : Nat
  time : Nat
  action : TimerAction
deriving DecidableEq, Repr

/-- Observable state of the step-transition engine. -/
structure SimState where
  /-- Global `currentStep` (line 13). -/
  currentStep : Int
  /-- Global `animationPlaying` busy guard (line 15). -/
  animationPlaying : Bool
  /-- `group.visible` of the six `molecules` entries. -/
  vis : Vis
  /-- Step for which title / indicator / buttons / scientific context were
  last refreshed. -/
  panelStep : Int
  /-- Data key for which `updateMoleculeData` was last run. -/
  panelKey : MolKey
  /-- Current time in ms. -/
  now : Nat
  /-- Pending timers, sorted by fire time, ties first-scheduled-first. -/
  timers : List PendingTimer
  /-- Next fresh timer id. -/
  nextId : Nat
  /-- The `window.animationResetTimeout` handle. -/
  watchdogId : Option Nat
deriving DecidableEq, Repr

/-- Global `const totalSteps = 3` (line 14). -/
def totalSteps : Int := 3

/-- Line 2731, `getDataKeyForStep`: switch over the step with cases for
0..4 and a `default` arm returning `sodiumNitrite`. -/
def getDataKeyForStep (step : Int) : MolKey :=
  if step = 0 then .sodiumNitrite
  else if step = 1 then .nitrousAcid
  else if step = 2 then .decomposed
  else if step = 3 then .nitrosamine
  else if step = 4 then .nitrosamine
  else .sodiumNitrite

/-- Insert a timer into the queue in event-loop order: strictly earlier
fire times go first, equal fire times keep scheduling order. -/
def insertTimer (t : PendingTimer) : List PendingTimer → List PendingTimer
  | [] => [t]
  | u :: rest => if t.time < u.time then t :: u :: rest else u :: insertTimer t rest

/-- Model of `setTimeout(action, delay)`: schedules `action` at
`now + delay` under a fresh id. -/
def schedule (delay : Nat) (a : TimerAction) (s : SimState) : SimState :=
  { s with
    timers := insertTimer { id := s.nextId, time := s.now + delay, action := a } s.timers
    nextId := s.nextId + 1 }

/-- Lines 4203-4205: `if (window.animationResetTimeout)
clearTimeout(window.animationResetTimeout)`. -/
def clearResetTimeout (s : SimState) : SimState :=
  match s.watchdogId with
  | none => s
  | some i => { s with timers := s.timers.filter fun t => decide (t.id ≠ i) }

/-- Effect of one `setTimeout` callback body on the state. -/
def fireAction (a : TimerAction) (s : SimState) : SimState :=
  match a with
  | .swapVis fromKey toKey =>
      { s with vis := (s.vis.set fromKey false).set toKey true }
  | .startFadeIn toStep =>
      { s with
        timers := insertTimer
          { id := s.nextId, time := s.now + 900, action := .complete toStep } s.timers
        nextId := s.nextId + 1 }
  | .complete toStep =>
      { s with
        panelStep := toStep
        panelKey := getDataKeyForStep toStep
        animationPlaying := false }
  | .watchdog => { s with animationPlaying := false }

/-- Event-loop interpreter: fire, in order, every pending timer due by
`deadline`, then settle the clock at the deadline.  `fuel` bounds the
number of steps; every lemma below supplies enough of it. -/
def runTimersUntil : Nat → Nat → SimState → SimState
  | 0, _, s => s
  | fuel + 1, deadline, s =>
    match s.timers with
    | [] => { s with now := max s.now deadline }
    | t :: rest =>
      if t.time ≤ deadline then
        runTimersUntil fuel deadline
          (fireAction t.action { s with now := max s.now t.time, timers := rest })
      else { s with now := max s.now deadline }

/-- Line 3964, `transitionBetweenSteps(fromStep, toStep)`: set the busy
flag, show only the source group (resetting opacities), build the
particle group, schedule the source-hide / target-show swap at 900 ms,
schedule the fade-in phase at 750 ms (whose callback schedules the
completion handler a further 900 ms later), focus the camera, then clear
any previously armed safety timeout and arm a fresh 5000 ms watchdog,
storing its handle in `window.animationResetTimeout`. -/
def transitionBetweenSteps (fromStep toStep : Int) (s : SimState) : SimState :=
  let fromKey := getDataKeyForStep fromStep
  let toKey := getDataKeyForStep toStep
  let s1 := { s with animationPlaying := true, vis := onlyVisible fromKey }
  let s2 := schedule 900 (.swapVis fromKey toKey) s1
  let s3 := schedule 750 (.startFadeIn toStep) s2
  let s4 := clearResetTimeout s3
  { s4 with
    timers := insertTimer
      { id := s4.nextId, time := s4.now + 5000, action := .watchdog } s4.timers
    nextId := s4.nextId + 1
    watchdogId := some s4.nextId }

/-- Line 4213, the live `showStep(step)`: bail out if an animation is
playing, otherwise show exactly the group keyed by
`getDataKeyForStep(step)`, set `currentStep = step` and refresh every
panel for `step`.  There is no bounds check in this revision. -/
def showStep (step : Int) (s : SimState) : SimState :=
  if s.animationPlaying then s
  else
    let dataKey := getDataKeyForStep step
    { s with
      vis := onlyVisible dataKey
      currentStep := step
      panelStep := step
      panelKey := dataKey }

/-- Line 4243, `nextStep()`: drop the click while an animation is
playing; otherwise, when `currentStep < totalSteps`, save the previous
step, eagerly set `currentStep` to the target and start the transition. -/
def nextStep (s : SimState) : SimState :=
  if s.animationPlaying then s
  else if s.currentStep < totalSteps then
    transitionBetweenSteps s.currentStep (s.currentStep + 1)
      { s with currentStep := s.currentStep + 1 }
  else s

/-- Line 4287, `previousStep()`: drop the click while an animation is
playing; otherwise, when `currentStep > 0`, save the previous step,
eagerly set `currentStep` to the target and start the transition. -/
def previousStep (s : SimState) : SimState :=
  if s.animationPlaying then s
  else if 0 < s.currentStep then
    transitionBetweenSteps s.currentStep (s.currentStep - 1)
      { s with currentStep := s.currentStep - 1 }
  else s

/-- Line 4478, one tick of the `animate()` render loop, restricted to
the state the model tracks: since `molecules.stomach` exists after
`createMolecules`, every frame re-executes
`molecules.stomach.group.visible = true` (lines 4487-4490, comment in
the source: ensure stomach is always visible).  The rest of the loop
body jitters atom positions, orbits electrons, culls particles and
renders — visual detail outside the model.  No frame ever touches the
protein group, which no live code path shows.  The loop reschedules
itself via `requestAnimationFrame` and runs between timer firings, so
every idle state the user can observe is a post-frame state. -/
def renderFrame (s : SimState) : SimState :=
  { s with vis := s.vis.set .stomach true }

/-- Visibility as observed in an idle frame of the running program:
exactly the primary group `k` plus the frame-asserted stomach group are
visible; the protein group and the other primaries are hidden. -/
def visibleWithStomach (k : MolKey) : Vis :=
  (onlyVisible k).set .stomach true

/-- State right after `createMolecules()` (lines 1154-1710): only the
sodium-nitrite group is visible (line 1406); the nitrous acid (1466),
decomposed (1517), nitrosamine (1589), stomach (1314-1315) and protein
(1708-1709) groups are hidden.  `init()` has already run
`updateMoleculeData` for `sodiumNitrite` and `updateScientificContext`
for step 0 (lines 425-426). -/
def createMoleculesState : SimState :=
  { currentStep := 0
  , animationPlaying := false
  , vis :=
      { sodiumNitrite := true
      , nitrousAcid := false
      , decomposed := false
      , nitrosamine := false
      , stomach := false
      , protein := false }
  , panelStep := 0
  , panelKey := .sodiumNitrite
  , now := 0
  , timers := []
  , nextId := 0
  , watchdogId := none }

/-- Engine state inside `init()` right after the `showStep(0)` call
(line 427), before the first `animate()` frame (line 430): the stomach
group is still hidden at this sub-init moment.  The engine fields
(step, guard, panels, timer queue) are already those of the running
application; only the frame-asserted stomach visibility is still to
come, via `renderFrame`. -/
def initState : SimState :=
  showStep 0 createMoleculesState

/-- Observable initial state of the application: `init()` calls
`animate()` (line 430) before returning, and the first frame re-asserts
the stomach visibility, so this — not the pre-frame `initState` — is
the state the user first sees. -/
def observedInitState : SimState :=
  renderFrame initState

/-- Recognises the pending-timer shape of a reachable idle state: either
no timer is pending, or only the watchdog of the most recent transition
is, registered under `window.animationResetTimeout`; and the stored
handle, if any, was previously issued (is below `nextId`). -/
def timersOk (s : SimState) : Bool :=
  (match s.watchdogId with
   | none => true
   | some i => decide (i < s.nextId)) &&
  (match s.timers with
   | [] => true
   | [tm] => decide (tm.action = .watchdog) && decide (s.watchdogId = some tm.id)
   | _ => false)

/-- An idle engine state: no animation in progress and a reachable
pending-timer shape. -/
def quiescent (s : SimState) : Bool :=
  !s.animationPlaying && timersOk s

set_option maxRecDepth 4000

/-- Characterisation of a transition start from a state with a reachable
pending-timer shape: the busy flag goes up, only the source group stays
visible, and the queue afterwards holds exactly the fade-in timeout
(750 ms), the visibility swap (900 ms) and the fresh watchdog (5000 ms),
any previously pending watchdog having been cancelled. -/
theorem transitionBetweenSteps_eq (s : SimState) (h : timersOk s = true) (f t : Int) :
    transitionBetweenSteps f t s =
      { currentStep := s.currentStep
      , animationPlaying := true
      , vis := onlyVisible (getDataKeyForStep f)
      , panelStep := s.panelStep
      , panelKey := s.panelKey
      , now := s.now
      , timers :=
          [ { id := s.nextId + 1, time := s.now + 750, action := .startFadeIn t }
          , { id := s.nextId, time := s.now + 900,
              action := .swapVis (getDataKeyForStep f) (getDataKeyForStep t) }
          , { id := s.nextId + 2, time := s.now + 5000, action := .watchdog } ]
      , nextId := s.nextId + 3
      , watchdogId := some (s.nextId + 2) } := by
  obtain ⟨c, b, v, ps, pk, τ, timers, n, wd⟩ := s
  dsimp only [timersOk] at h
  match timers, wd with
  | [], none =>
      simp [transitionBetweenSteps, schedule, clearResetTimeout, insertTimer,
        add_lt_add_iff_left]
  | [], some i =>
      simp only [Bool.and_eq_true, decide_eq_true_eq] at h
      have h2 : n ≠ i := by omega
      have h3 : n + 1 ≠ i := by omega
      simp [transitionBetweenSteps, schedule, clearResetTimeout, insertTimer,
        add_lt_add_iff_left, List.filter, h2, h3]
  | [tm], none =>
      simp at h
  | [tm], some i =>
      simp only [Bool.and_eq_true, decide_eq_true_eq, Option.some.injEq] at h
      obtain ⟨hin, hact, hid⟩ := h
      have h2 : n ≠ i := by omega
      have h3 : n + 1 ≠ i := by omega
      have h6 : tm.id = i := hid.symm
      by_cases h1 : τ + 900 < tm.time
      · simp [transitionBetweenSteps, schedule, clearResetTimeout, insertTimer,
          add_lt_add_iff_left, List.filter, h1, h2, h3, h6]
      · by_cases h5 : τ + 750 < tm.time
        · simp [transitionBetweenSteps, schedule, clearResetTimeout, insertTimer,
            add_lt_add_iff_left, List.filter, h1, h2, h3, h5, h6]
        · simp [transitionBetweenSteps, schedule, clearResetTimeout, insertTimer,
            add_lt_add_iff_left, List.filter, h1, h2, h3, h5, h6]
  | tm1 :: tm2 :: rest, _ =>
      simp at h

/-- Running the freshly scheduled transition queue to the completion
deadline (1650 ms after the start) fires the fade-in phase, the
visibility swap and the completion handler, in that order: the busy flag
ends down, the panels are refreshed for the target step and only the
watchdog is still pending. -/
theorem run_transition_complete (cur ps t : Int) (pk : MolKey) (v : Vis) (fk tk : MolKey)
    (τ n : Nat) (wd : Option Nat) :
    runTimersUntil 10 (τ + 1650)
      { currentStep := cur, animationPlaying := true, vis := v,
        panelStep := ps, panelKey := pk, now := τ,
        timers :=
          [ { id := n + 1, time := τ + 750, action := .startFadeIn t }
          , { id := n, time := τ + 900, action := .swapVis fk tk }
          , { id := n + 2, time := τ + 5000, action := .watchdog } ],
        nextId := n + 3, watchdogId := wd } =
      { currentStep := cur, animationPlaying := false,
        vis := (v.set fk false).set tk true,
        panelStep := t, panelKey := getDataKeyForStep t, now := τ + 1650,
        timers := [ { id := n + 2, time := τ + 5000, action := .watchdog } ],
        nextId := n + 4, watchdogId := wd } := by
  simp [runTimersUntil, fireAction, insertTimer, Nat.max_def,
    add_lt_add_iff_left, add_le_add_iff_left, add_assoc, Nat.le_add_right]

/-- Running the freshly scheduled transition queue only up to the 900 ms
visibility swap: the completion handler (due at 1650 ms) has not fired
yet, so the busy flag is still up and the panels untouched. -/
theorem run_transition_mid (cur ps t : Int) (pk : MolKey) (v : Vis) (fk tk : MolKey)
    (τ n : Nat) (wd : Option Nat) :
    runTimersUntil 10 (τ + 900)
      { currentStep := cur, animationPlaying := true, vis := v,
        panelStep := ps, panelKey := pk, now := τ,
        timers :=
          [ { id := n + 1, time := τ + 750, action := .startFadeIn t }
          , { id := n, time := τ + 900, action := .swapVis fk tk }
          , { id := n + 2, time := τ + 5000, action := .watchdog } ],
        nextId := n + 3, watchdogId := wd } =
      { currentStep := cur, animationPlaying := true,
        vis := (v.set fk false).set tk true,
        panelStep := ps, panelKey := pk, now := τ + 900,
        timers :=
          [ { id := n + 3, time := τ + 1650, action := .complete t }
          , { id := n + 2, time := τ + 5000, action := .watchdog } ],
        nextId := n + 4, watchdogId := wd } := by
  simp [runTimersUntil, fireAction, insertTimer, Nat.max_def,
    add_lt_add_iff_left, add_le_add_iff_left, add_assoc, Nat.le_add_right]

/-- A queue holding only a watchdog due at 5000 ms: running to that
deadline fires it and force-clears the busy flag, whatever it was. -/
theorem run_watchdog_fires (cur ps : Int) (pk : MolKey) (v : Vis) (b : Bool)
    (τ i n : Nat) (wd : Option Nat) :
    runTimersUntil 10 (τ + 5000)
      { currentStep := cur, animationPlaying := b, vis := v,
        panelStep := ps, panelKey := pk, now := τ,
        timers := [ { id := i, time := τ + 5000, action := .watchdog } ],
        nextId := n, watchdogId := wd } =
      { currentStep := cur, animationPlaying := false, vis := v,
        panelStep := ps, panelKey := pk, now := τ + 5000,
        timers := [], nextId := n, watchdogId := wd } := by
  simp [runTimersUntil, fireAction, Nat.max_def,
    add_le_add_iff_left, Nat.le_add_right]

/-- A queue holding only a watchdog due at 5000 ms: running to any
deadline short of it changes nothing but the clock. -/
theorem run_watchdog_early (cur ps : Int) (pk : MolKey) (v : Vis) (b : Bool)
    (τ i n : Nat) (wd : Option Nat) :
    runTimersUntil 10 (τ + 4999)
      { currentStep := cur, animationPlaying := b, vis := v,
        panelStep := ps, panelKey := pk, now := τ,
        timers := [ { id := i, time := τ + 5000, action := .watchdog } ],
        nextId := n, watchdogId := wd } =
      { currentStep := cur, animationPlaying := b, vis := v,
        panelStep := ps, panelKey := pk, now := τ + 4999,
        timers := [ { id := i, time := τ + 5000, action := .watchdog } ],
        nextId := n, watchdogId := wd } := by
  simp [runTimersUntil, fireAction, Nat.max_def,
    add_le_add_iff_left, Nat.le_add_right]

/-- Hiding the sole visible group and then showing another yields the
state where exactly that other group is visible. -/
theorem set_onlyVisible (a b : MolKey) :
    ((onlyVisible a).set a false).set b true = onlyVisible b := by
  cases a <;> cases b <;> rfl

/-- A transition start never touches `currentStep`; only the callers
`nextStep` / `previousStep` do. -/
theorem transitionBetweenSteps_currentStep (f t : Int) (s : SimState) :
    (transitionBetweenSteps f t s).currentStep = s.currentStep := by
  cases h : s.watchdogId <;>
    simp [transitionBetweenSteps, schedule, clearResetTimeout, h]

/-- Unpacking the idle-state predicate. -/
theorem quiescent_parts (s : SimState) (h : quiescent s = true) :
    s.animationPlaying = false ∧ timersOk s = true := by
  simp only [quiescent, Bool.and_eq_true, Bool.not_eq_true'] at h
  exact h

/-- C1: while the busy guard `animationPlaying` is true, every navigation
entry point — `showStep` (the direct goToStep-style call), `nextStep` and
`previousStep` — returns without touching any state: the current step, the
busy flag, the visibility of every molecule group, the panels and the
pending timer queue are all unchanged, and no new transition is started. -/
theorem c1_busy_guard_noop (s : SimState) (t : Int)
    (h : s.animationPlaying = true) :
    showStep t s = s ∧ nextStep s = s ∧ previousStep s = s := by
  refine ⟨?_, ?_, ?_⟩ <;> simp [showStep, nextStep, previousStep, h]

/-- Witness for C1 at a concrete busy state: the state right after
`nextStep` from the initial state has the busy guard set, and every
navigation call on it is the identity. -/
theorem c1_busy_guard_noop_witness :
    (nextStep initState).animationPlaying = true ∧
    (showStep 2 (nextStep initState) = nextStep initState ∧
     nextStep (nextStep initState) = nextStep initState ∧
     previousStep (nextStep initState) = nextStep initState) :=
  ⟨by decide, c1_busy_guard_noop (nextStep initState) 2 (by decide)⟩

/-- C2: suppressing every pending callback of the freshly started
transition except the safety watchdog (modelling a completion callback
that never fires), the busy guard is still up 4999 ms after the start
but is back down once the 5000 ms watchdog armed by
`transitionBetweenSteps` elapses — the UI cannot stay locked. -/
theorem c2_watchdog_liveness (s : SimState) (f t : Int) (hq : quiescent s = true) :
    (transitionBetweenSteps f t s).timers.filter
        (fun tm => decide (tm.action = TimerAction.watchdog))
      = [ { id := s.nextId + 2, time := s.now + 5000, action := TimerAction.watchdog } ] ∧
    (runTimersUntil 10 (s.now + 4999)
      { transitionBetweenSteps f t s with
        timers := (transitionBetweenSteps f t s).timers.filter
          (fun tm => decide (tm.action = TimerAction.watchdog)) }).animationPlaying = true ∧
    (runTimersUntil 10 (s.now + 5000)
      { transitionBetweenSteps f t s with
        timers := (transitionBetweenSteps f t s).timers.filter
          (fun tm => decide (tm.action = TimerAction.watchdog)) }).animationPlaying = false := by
  obtain ⟨hb, ht⟩ := quiescent_parts s hq
  rw [transitionBetweenSteps_eq s ht f t]
  refine ⟨by simp [List.filter], ?_, ?_⟩
  · simp only [List.filter]
    simp [run_watchdog_early]
  · simp only [List.filter]
    simp [run_watchdog_fires]

/-- Witness for C2 at the concrete initial state, transition 0 → 1. -/
theorem c2_watchdog_liveness_witness :
    quiescent initState = true ∧
    ((transitionBetweenSteps 0 1 initState).timers.filter
        (fun tm => decide (tm.action = TimerAction.watchdog))
      = [ { id := initState.nextId + 2, time := initState.now + 5000,
            action := TimerAction.watchdog } ] ∧
     (runTimersUntil 10 (initState.now + 4999)
       { transitionBetweenSteps 0 1 initState with
         timers := (transitionBetweenSteps 0 1 initState).timers.filter
           (fun tm => decide (tm.action = TimerAction.watchdog)) }).animationPlaying = true ∧
     (runTimersUntil 10 (initState.now + 5000)
       { transitionBetweenSteps 0 1 initState with
         timers := (transitionBetweenSteps 0 1 initState).timers.filter
           (fun tm => decide (tm.action = TimerAction.watchdog)) }).animationPlaying = false) :=
  ⟨by decide, c2_watchdog_liveness initState 0 1 (by decide)⟩

/-- C3: from an idle state, once the transition started by a navigation
call runs to its normal completion callback (1650 ms after the start:
the 750 ms fade-in timeout plus its nested 900 ms completion timeout),
the current step equals the target, the busy guard is down, and the
molecule-data and scientific-context panels have been refreshed for the
target step.  The first conjunct covers the general goToStep pattern —
set `currentStep` to the target and start the transition, as both
callers do — for an arbitrary target; the others cover the two live
entry points `nextStep` / `previousStep` with their adjacent targets. -/
theorem c3_completion_state (s : SimState) (f t : Int) (hq : quiescent s = true) :
    ((runTimersUntil 10 (s.now + 1650)
        (transitionBetweenSteps f t { s with currentStep := t })).currentStep = t ∧
     (runTimersUntil 10 (s.now + 1650)
        (transitionBetweenSteps f t { s with currentStep := t })).animationPlaying = false ∧
     (runTimersUntil 10 (s.now + 1650)
        (transitionBetweenSteps f t { s with currentStep := t })).panelStep = t ∧
     (runTimersUntil 10 (s.now + 1650)
        (transitionBetweenSteps f t { s with currentStep := t })).panelKey
       = getDataKeyForStep t) ∧
    (s.currentStep < totalSteps →
      (runTimersUntil 10 (s.now + 1650) (nextStep s)).currentStep = s.currentStep + 1 ∧
      (runTimersUntil 10 (s.now + 1650) (nextStep s)).animationPlaying = false ∧
      (runTimersUntil 10 (s.now + 1650) (nextStep s)).panelStep = s.currentStep + 1 ∧
      (runTimersUntil 10 (s.now + 1650) (nextStep s)).panelKey
        = getDataKeyForStep (s.currentStep + 1)) ∧
    (0 < s.currentStep →
      (runTimersUntil 10 (s.now + 1650) (previousStep s)).currentStep = s.currentStep - 1 ∧
      (runTimersUntil 10 (s.now + 1650) (previousStep s)).animationPlaying = false ∧
      (runTimersUntil 10 (s.now + 1650) (previousStep s)).panelStep = s.currentStep - 1 ∧
      (runTimersUntil 10 (s.now + 1650) (previousStep s)).panelKey
        = getDataKeyForStep (s.currentStep - 1)) := by
  obtain ⟨hb, ht⟩ := quiescent_parts s hq
  refine ⟨?_, ?_, ?_⟩
  · have ht2 : timersOk { s with currentStep := t } = true := ht
    rw [transitionBetweenSteps_eq _ ht2]
    rw [run_transition_complete]
    simp
  · intro hc
    have hns : nextStep s =
        transitionBetweenSteps s.currentStep (s.currentStep + 1)
          { s with currentStep := s.currentStep + 1 } := by
      simp [nextStep, hb, hc]
    have ht2 : timersOk { s with currentStep := s.currentStep + 1 } = true := ht
    rw [hns, transitionBetweenSteps_eq _ ht2]
    rw [run_transition_complete]
    simp
  · intro hc
    have hps : previousStep s =
        transitionBetweenSteps s.currentStep (s.currentStep - 1)
          { s with currentStep := s.currentStep - 1 } := by
      simp [previousStep, hb, hc]
    have ht2 : timersOk { s with currentStep := s.currentStep - 1 } = true := ht
    rw [hps, transitionBetweenSteps_eq _ ht2]
    rw [run_transition_complete]
    simp

/-- Witness for C3 at the concrete initial state, target 1. -/
theorem c3_completion_state_witness :
    quiescent initState = true ∧
    (((runTimersUntil 10 (initState.now + 1650)
        (transitionBetweenSteps 0 1 { initState with currentStep := 1 })).currentStep = 1 ∧
      (runTimersUntil 10 (initState.now + 1650)
        (transitionBetweenSteps 0 1 { initState with currentStep := 1 })).animationPlaying
        = false ∧
      (runTimersUntil 10 (initState.now + 1650)
        (transitionBetweenSteps 0 1 { initState with currentStep := 1 })).panelStep = 1 ∧
      (runTimersUntil 10 (initState.now + 1650)
        (transitionBetweenSteps 0 1 { initState with currentStep := 1 })).panelKey
        = getDataKeyForStep 1) ∧
     (initState.currentStep < totalSteps →
      (runTimersUntil 10 (initState.now + 1650) (nextStep initState)).currentStep
        = initState.currentStep + 1 ∧
      (runTimersUntil 10 (initState.now + 1650) (nextStep initState)).animationPlaying = false ∧
      (runTimersUntil 10 (initState.now + 1650) (nextStep initState)).panelStep
        = initState.currentStep + 1 ∧
      (runTimersUntil 10 (initState.now + 1650) (nextStep initState)).panelKey
        = getDataKeyForStep (initState.currentStep + 1)) ∧
     (0 < initState.currentStep →
      (runTimersUntil 10 (initState.now + 1650) (previousStep initState)).currentStep
        = initState.currentStep - 1 ∧
      (runTimersUntil 10 (initState.now + 1650) (previousStep initState)).animationPlaying
        = false ∧
      (runTimersUntil 10 (initState.now + 1650) (previousStep initState)).panelStep
        = initState.currentStep - 1 ∧
      (runTimersUntil 10 (initState.now + 1650) (previousStep initState)).panelKey
        = getDataKeyForStep (initState.currentStep - 1))) :=
  ⟨by decide, c3_completion_state initState 0 1 (by decide)⟩

/-- C4 counterexample: from the reachable idle state at step 3, the
out-of-range call `showStep 5` is not ignored — it changes `currentStep`
to 5 and switches the visible molecule (to the `sodiumNitrite` fallback
of `getDataKeyForStep`), because the live `showStep` has no bounds
check. -/
theorem c4_out_of_range_counterexample :
    (showStep 3 initState).animationPlaying = false ∧
    (showStep 3 initState).currentStep = 3 ∧
    (showStep 5 (showStep 3 initState)).currentStep = 5 ∧
    (showStep 5 (showStep 3 initState)).vis ≠ (showStep 3 initState).vis := by
  decide

/-- C4 amended: an out-of-range `showStep` call with the guard down
raises no error and leaves the busy flag false, but it is not a no-op:
`currentStep` becomes the out-of-range value and exactly the fallback
group `getDataKeyForStep target` becomes visible. -/
theorem c4_out_of_range_amended (s : SimState) (t : Int)
    (h1 : s.animationPlaying = false) (_h2 : t < 0 ∨ 3 < t) :
    (showStep t s).animationPlaying = false ∧
    (showStep t s).currentStep = t ∧
    (showStep t s).vis = onlyVisible (getDataKeyForStep t) := by
  simp [showStep, h1]

/-- Witness for the amended C4 at the concrete idle step-3 state and
target 5. -/
theorem c4_out_of_range_amended_witness :
    ((showStep 3 initState).animationPlaying = false ∧
      ((5 : Int) < 0 ∨ (3 : Int) < 5)) ∧
    ((showStep 5 (showStep 3 initState)).animationPlaying = false ∧
     (showStep 5 (showStep 3 initState)).currentStep = 5 ∧
     (showStep 5 (showStep 3 initState)).vis = onlyVisible (getDataKeyForStep 5)) :=
  ⟨⟨by decide, by decide⟩,
    c4_out_of_range_amended (showStep 3 initState) 5 (by decide) (by decide)⟩

/-- C5 counterexample: immediately after `nextStep` from the initial
state the transition is still in progress (`animationPlaying = true`,
the completion callback has not fired), yet `currentStep` already holds
the target 1 instead of the pre-navigation step 0 — `nextStep` updates
`currentStep` eagerly, before starting the transition. -/
theorem c5_eager_step_counterexample :
    (nextStep initState).animationPlaying = true ∧
    initState.currentStep = 0 ∧
    (nextStep initState).currentStep = 1 := by
  decide

/-- C5 amended: `nextStep` / `previousStep` set `currentStep` to the
target step at call time, before the transition begins; at every moment
while the transition is in progress (the state changes only when a
scheduled timer fires, and the last pre-completion timer fires at
900 ms) `currentStep` equals the target, not the pre-navigation step,
and the busy guard is still up. -/
theorem c5_eager_step_amended (s : SimState) (hq : quiescent s = true) :
    (s.currentStep < totalSteps →
      (nextStep s).animationPlaying = true ∧
      (nextStep s).currentStep = s.currentStep + 1 ∧
      (runTimersUntil 10 (s.now + 900) (nextStep s)).animationPlaying = true ∧
      (runTimersUntil 10 (s.now + 900) (nextStep s)).currentStep = s.currentStep + 1) ∧
    (0 < s.currentStep →
      (previousStep s).animationPlaying = true ∧
      (previousStep s).currentStep = s.currentStep - 1 ∧
      (runTimersUntil 10 (s.now + 900) (previousStep s)).animationPlaying = true ∧
      (runTimersUntil 10 (s.now + 900) (previousStep s)).currentStep = s.currentStep - 1) := by
  obtain ⟨hb, ht⟩ := quiescent_parts s hq
  constructor
  · intro hc
    have hns : nextStep s =
        transitionBetweenSteps s.currentStep (s.currentStep + 1)
          { s with currentStep := s.currentStep + 1 } := by
      simp [nextStep, hb, hc]
    have ht2 : timersOk { s with currentStep := s.currentStep + 1 } = true := ht
    rw [hns, transitionBetweenSteps_eq _ ht2]
    rw [run_transition_mid]
    simp
  · intro hc
    have hps : previousStep s =
        transitionBetweenSteps s.currentStep (s.currentStep - 1)
          { s with currentStep := s.currentStep - 1 } := by
      simp [previousStep, hb, hc]
    have ht2 : timersOk { s with currentStep := s.currentStep - 1 } = true := ht
    rw [hps, transitionBetweenSteps_eq _ ht2]
    rw [run_transition_mid]
    simp

/-- Witness for the amended C5 at the concrete initial state. -/
theorem c5_eager_step_amended_witness :
    quiescent initState = true ∧
    ((initState.currentStep < totalSteps →
      (nextStep initState).animationPlaying = true ∧
      (nextStep initState).currentStep = initState.currentStep + 1 ∧
      (runTimersUntil 10 (initState.now + 900) (nextStep initState)).animationPlaying
        = true ∧
      (runTimersUntil 10 (initState.now + 900) (nextStep initState)).currentStep
        = initState.currentStep + 1) ∧
     (0 < initState.currentStep →
      (previousStep initState).animationPlaying = true ∧
      (previousStep initState).currentStep = initState.currentStep - 1 ∧
      (runTimersUntil 10 (initState.now + 900) (previousStep initState)).animationPlaying
        = true ∧
      (runTimersUntil 10 (initState.now + 900) (previousStep initState)).currentStep
        = initState.currentStep - 1)) :=
  ⟨by decide, c5_eager_step_amended initState (by decide)⟩

/-- C6: with the busy guard down, `nextStep` at step 3 and `previousStep`
at step 0 are complete no-ops, interior calls move the step by one, and
a step inside `[0,3]` stays inside `[0,3]` under both operations. -/
theorem c6_step_clamping (s : SimState) (h : s.animationPlaying = false) :
    (s.currentStep = totalSteps → nextStep s = s) ∧
    (s.currentStep = 0 → previousStep s = s) ∧
    (s.currentStep < totalSteps → (nextStep s).currentStep = s.currentStep + 1) ∧
    (0 < s.currentStep → (previousStep s).currentStep = s.currentStep - 1) ∧
    (0 ≤ s.currentStep → s.currentStep ≤ totalSteps →
      0 ≤ (nextStep s).currentStep ∧ (nextStep s).currentStep ≤ totalSteps ∧
      0 ≤ (previousStep s).currentStep ∧ (previousStep s).currentStep ≤ totalSteps) := by
  have hn : s.currentStep < totalSteps →
      (nextStep s).currentStep = s.currentStep + 1 := by
    intro hc
    simp [nextStep, h, hc, transitionBetweenSteps_currentStep]
  refine ⟨?_, ?_, hn, ?_, ?_⟩
  · intro hc
    have hx : ¬ s.currentStep < totalSteps := by omega
    simp [nextStep, h, hx]
  · intro hc
    have hx : ¬ 0 < s.currentStep := by omega
    simp [previousStep, h, hx]
  · intro hc
    simp [previousStep, h, hc, transitionBetweenSteps_currentStep]
  · intro h0 h3
    by_cases hc : s.currentStep < totalSteps
    · have e1 := hn hc
      by_cases hp : 0 < s.currentStep
      · have e2 : (previousStep s).currentStep = s.currentStep - 1 := by
          simp [previousStep, h, hp, transitionBetweenSteps_currentStep]
        refine ⟨by omega, by omega, by omega, by omega⟩
      · have e2 : previousStep s = s := by simp [previousStep, h, hp]
        refine ⟨by omega, by omega, by rw [e2]; omega, by rw [e2]; omega⟩
    · have e1 : nextStep s = s := by simp [nextStep, h, hc]
      by_cases hp : 0 < s.currentStep
      · have e2 : (previousStep s).currentStep = s.currentStep - 1 := by
          simp [previousStep, h, hp, transitionBetweenSteps_currentStep]
        refine ⟨by rw [e1]; omega, by rw [e1]; omega, by omega, by omega⟩
      · have e2 : previousStep s = s := by simp [previousStep, h, hp]
        refine ⟨by rw [e1]; omega, by rw [e1]; omega, by rw [e2]; omega, by rw [e2]; omega⟩

/-- Witness for C6 at the concrete initial state (step 0, guard down). -/
theorem c6_step_clamping_witness :
    initState.animationPlaying = false ∧
    ((initState.currentStep = totalSteps → nextStep initState = initState) ∧
     (initState.currentStep = 0 → previousStep initState = initState) ∧
     (initState.currentStep < totalSteps →
       (nextStep initState).currentStep = initState.currentStep + 1) ∧
     (0 < initState.currentStep →
       (previousStep initState).currentStep = initState.currentStep - 1) ∧
     (0 ≤ initState.currentStep → initState.currentStep ≤ totalSteps →
       0 ≤ (nextStep initState).currentStep ∧
       (nextStep initState).currentStep ≤ totalSteps ∧
       0 ≤ (previousStep initState).currentStep ∧
       (previousStep initState).currentStep ≤ totalSteps)) :=
  ⟨by decide, c6_step_clamping initState (by decide)⟩

/-- C7 counterexample: the observable initial state — after the first
`animate()` frame of `init()` — is outside any transition (guard down,
no pending timer) and shows the step-0 primary molecule with the
stomach group visible, yet the `protein` half of the stomach / protein
environment is hidden: no live code path ever shows the protein group,
so the environment does not remain (fully) visible alongside the
primary molecule. -/
theorem c7_protein_counterexample :
    observedInitState.animationPlaying = false ∧
    observedInitState.timers = [] ∧
    observedInitState.vis.sodiumNitrite = true ∧
    observedInitState.vis.stomach = true ∧
    observedInitState.vis.protein = false := by
  decide

/-- C7 amended: outside of an in-progress transition — observed
phase-consistently with the render loop, whose every frame re-asserts
the stomach visibility — exactly one primary molecule group, the one
`getDataKeyForStep` maps the current step to, is visible and the
stomach environment group remains visible alongside it; the protein
environment group and every other molecule group are hidden.  This
holds both after any direct `showStep` display and after a navigation
transition completes. -/
theorem c7_environment_amended (s : SimState) (t : Int) (hq : quiescent s = true) :
    (renderFrame (showStep t s)).vis
      = visibleWithStomach (getDataKeyForStep ((showStep t s).currentStep)) ∧
    (s.currentStep < totalSteps →
      (renderFrame (runTimersUntil 10 (s.now + 1650) (nextStep s))).animationPlaying
        = false ∧
      (renderFrame (runTimersUntil 10 (s.now + 1650) (nextStep s))).vis
        = visibleWithStomach (getDataKeyForStep
            ((runTimersUntil 10 (s.now + 1650) (nextStep s)).currentStep))) := by
  obtain ⟨hb, ht⟩ := quiescent_parts s hq
  constructor
  · simp [showStep, renderFrame, visibleWithStomach, hb]
  · intro hc
    have hns : nextStep s =
        transitionBetweenSteps s.currentStep (s.currentStep + 1)
          { s with currentStep := s.currentStep + 1 } := by
      simp [nextStep, hb, hc]
    have ht2 : timersOk { s with currentStep := s.currentStep + 1 } = true := ht
    rw [hns, transitionBetweenSteps_eq _ ht2]
    rw [run_transition_complete]
    refine ⟨rfl, ?_⟩
    simp [renderFrame, visibleWithStomach, set_onlyVisible]

/-- Witness for the amended C7 at the concrete observable initial state,
display target 2. -/
theorem c7_environment_amended_witness :
    quiescent observedInitState = true ∧
    ((renderFrame (showStep 2 observedInitState)).vis
      = visibleWithStomach (getDataKeyForStep ((showStep 2 observedInitState).currentStep)) ∧
     (observedInitState.currentStep < totalSteps →
      (renderFrame (runTimersUntil 10 (observedInitState.now + 1650)
          (nextStep observedInitState))).animationPlaying = false ∧
      (renderFrame (runTimersUntil 10 (observedInitState.now + 1650)
          (nextStep observedInitState))).vis
        = visibleWithStomach (getDataKeyForStep
            ((runTimersUntil 10 (observedInitState.now + 1650)
               (nextStep observedInitState)).currentStep)))) :=
  ⟨by decide, c7_environment_amended observedInitState 2 (by decide)⟩

/-- C8: `getDataKeyForStep` is a pure total function — on every integer
input it returns one of the four primary species keys — and on steps
0, 1, 2, 3 it returns `sodiumNitrite`, `nitrousAcid`, `decomposed`
(the nitrosonium ion) and `nitrosamine` respectively, four pairwise
distinct keys, so the restriction to `[0,3]` is one-to-one. -/
theorem c8_data_key_lookup :
    getDataKeyForStep 0 = .sodiumNitrite ∧
    getDataKeyForStep 1 = .nitrousAcid ∧
    getDataKeyForStep 2 = .decomposed ∧
    getDataKeyForStep 3 = .nitrosamine ∧
    [getDataKeyForStep 0, getDataKeyForStep 1,
     getDataKeyForStep 2, getDataKeyForStep 3].Nodup ∧
    ∀ n : Int, (getDataKeyForStep n).isPrimary = true := by
  refine ⟨by decide, by decide, by decide, by decide, by decide, ?_⟩
  intro n
  unfold getDataKeyForStep
  repeat' split
  all_goals rfl

/-- C9: the round trip `showStep 0`, `showStep 3`, `showStep 0` from the
initial state ends with exactly the initial visible-molecule set (each
`showStep` call is synchronous, so each completes before the next call
is issued).  Both endpoints are compared in the same render-loop phase:
the frame mutation `renderFrame` only sets the stomach flag, so applying
it to both sides preserves the equality. -/
theorem c9_round_trip :
    (showStep 0 (showStep 3 (showStep 0 initState))).vis = initState.vis := by
  decide

/-- C10: starting a transition from a state whose pending-timer queue has
the reachable idle shape first cancels the previously armed watchdog
(`clearTimeout(window.animationResetTimeout)`) and then arms its own, so
exactly one watchdog timer is pending afterwards — the fresh one, firing
5000 ms after this start and registered under the fresh handle — and no
watchdog armed by an earlier transition remains to fire during the new
transition. -/
theorem c10_single_watchdog (s : SimState) (f t : Int) (h : timersOk s = true) :
    (transitionBetweenSteps f t s).timers.filter
        (fun tm => decide (tm.action = TimerAction.watchdog))
      = [ { id := s.nextId + 2, time := s.now + 5000, action := TimerAction.watchdog } ] ∧
    (transitionBetweenSteps f t s).watchdogId = some (s.nextId + 2) := by
  rw [transitionBetweenSteps_eq s h f t]
  exact ⟨by simp [List.filter], rfl⟩

/-- Witness for C10 at the post-completion state of a first transition,
whose stale watchdog is still pending and is cancelled by the next
transition start. -/
theorem c10_single_watchdog_witness :
    timersOk (runTimersUntil 10 1650 (nextStep initState)) = true ∧
    ((transitionBetweenSteps 1 2 (runTimersUntil 10 1650 (nextStep initState))).timers.filter
        (fun tm => decide (tm.action = TimerAction.watchdog))
      = [ { id := (runTimersUntil 10 1650 (nextStep initState)).nextId + 2,
            time := (runTimersUntil 10 1650 (nextStep initState)).now + 5000,
            action := TimerAction.watchdog } ] ∧
     (transitionBetweenSteps 1 2 (runTimersUntil 10 1650 (nextStep initState))).watchdogId
      = some ((runTimersUntil 10 1650 (nextStep initState)).nextId + 2)) :=
  ⟨by decide, c10_single_watchdog (runTimersUntil 10 1650 (nextStep initState)) 1 2 (by decide)⟩
